import Mathlib

/-!
Shallow embedding of the event rendering pipeline of pwru
(src/internal/pwru/output.go) and proofs about it.

Machine integers (Go uint8/uint16/uint32/uint64) are modelled as `Nat`
with explicit `% 2 ^ w` where overflow can occur.  Go maps and the two
ebpf side tables are modelled as `Nat → Option _` functions; a failed
ebpf `Lookup` corresponds to `none`.  Output is modelled structurally:
one `Record` per event holding the column contents the code writes.
-/

namespace Pwru

/-- The modulus of Go uint64 arithmetic. -/
def W64 : Nat := 2 ^ 64

/-- Lowercase hexadecimal digits of a number, as Go's %x verb prints them. -/
def hexDigits (n : Nat) : String := (Nat.toDigits 16 n).asString

/-- Go's fmt.Sprintf with the 0x%x verb. -/
def hexStr (n : Nat) : String := "0x" ++ hexDigits n

/-- Metadata block of an event.  The struct is declared in internal/pwru
outside src/; the field set is the one output.go line 107 reads. -/
structure Meta where
  Netns : Nat
  Mark : Nat
  Ifindex : Nat
  Proto : Nat
  MTU : Nat
  Len : Nat

/-- Four-tuple block of an event, as read by output.go lines 110-115:
16-byte address buffers, ports in network byte order, L3/L4 tags. -/
structure Tuple where
  Saddr : List Nat
  Daddr : List Nat
  Sport : Nat
  Dport : Nat
  L3Proto : Nat
  L4Proto : Nat

/-- A decoded trace event, with the fields output.go reads. -/
structure Event where
  PID : Nat
  SAddr : Nat
  Timestamp : Nat
  Addr : Nat
  CPU : Nat
  Meta : Meta
  Tuple : Tuple
  PrintStackId : Nat
  PrintSkbId : Nat

/-- The output option flags output.go consults. -/
structure Flags where
  OutputTS : String
  OutputMeta : Bool
  OutputTuple : Bool
  OutputStack : Bool
  OutputSkb : Bool

/-- protoToStr from output.go lines 140-153.  The syscall constants are
IPPROTO_TCP = 6, IPPROTO_UDP = 17, IPPROTO_ICMP = 1, IPPROTO_ICMPV6 = 58. -/
def protoToStr (proto : Nat) : String :=
  if proto = 6 then "tcp"
  else if proto = 17 then "udp"
  else if proto = 1 then "icmp"
  else if proto = 58 then "icmp6"
  else ""

/-- addrToStr from output.go lines 155-164.  The syscall constants are
ETH_P_IP = 0x0800 = 2048 and ETH_P_IPV6 = 0x86DD = 34525.  The textual
rendering of an IP byte slice (net.IP.String, an external library call)
is passed in as `ipStr`; the function itself selects the significant
bytes exactly as the Go slice expressions addr[:4] and addr[:] do. -/
def addrToStr (ipStr : List Nat → String) (proto : Nat) (addr : List Nat) : String :=
  if proto = 2048 then ipStr (addr.take 4)
  else if proto = 34525 then "[" ++ ipStr addr ++ "]"
  else ""

/-- Modelled from the spec: NetworkToHost16 lives in internal/byteorder,
which is not under src/.  Spec section 4.6: ports are stored in network
byte order (big-endian) and must be converted to host order (the
supported hosts are little-endian) before rendering, so the two bytes of
the 16-bit value are swapped. -/
def NetworkToHost16 (x : Nat) : Nat := x % 256 * 256 + x / 256 % 256

/-- Exact lookup in the Addr2NameMap symbol table (a Go map, modelled as
an association list with unique keys). -/
def lookupSym (tbl : List (Nat × String)) (a : Nat) : Option String := tbl.lookup a

/-- Modelled from the spec: findNearestSym lives in internal/pwru/ksym.go,
not under src/.  Spec section 4.2: the nearest-below lookup returns the
symbol whose address is the greatest value not exceeding the queried
address; the spec fixes no output when the table has no such address, so
the queried address in hex stands in. -/
def findNearestSym (tbl : List (Nat × String)) (ip : Nat) : String :=
  match (tbl.filter fun p => decide (p.1 ≤ ip)).foldl
      (fun acc p => match acc with
        | none => some p
        | some q => if q.1 ≤ p.1 then some p else some q) none with
  | some p => p.2
  | none => hexStr ip

/-- The address-normalization switch of output.go lines 77-87: `var addr
uint64` starts at zero and only the amd64 and arm64 cases assign it; on
amd64 a single-probe attachment (kprobeMulti false) subtracts 1 in
uint64 arithmetic. -/
def normalizeAddr (goarch : String) (kprobeMulti : Bool) (rawAddr : Nat) : Nat :=
  if goarch = "amd64" then
    if kprobeMulti then rawAddr else (rawAddr + W64 - 1) % W64
  else if goarch = "arm64" then rawAddr
  else 0

/-- The function-name resolution of output.go lines 88-98: exact lookup
of the normalized address; else, only on amd64, exact lookup of the
address minus 4 in uint64 arithmetic; else the hex literal of the
normalized address. -/
def resolveFuncName (goarch : String) (tbl : List (Nat × String)) (addr : Nat) : String :=
  match lookupSym tbl addr with
  | some name => name
  | none =>
    match lookupSym tbl ((addr + W64 - 4) % W64) with
    | some name => if goarch = "amd64" then name else hexStr addr
    | none => hexStr addr

/-- The mutable state of the output struct plus the two kernel-side
tables it consumes: lastSeenSkb (a Go map), printStackMap (StackData per
id; the IPs array is the stored address list) and printSkbMap. -/
structure OutState where
  lastSeenSkb : Nat → Option Nat
  stackTable : Nat → Option (List Nat)
  skbTable : Nat → Option String

/-- One rendered record: the column contents Print writes, in order.
Optional sections are `none`/`[]` when their flag is off. -/
structure Record where
  skbCol : String
  cpuCol : String
  processCol : String
  funcCol : String
  tsCol : Option Nat
  metaCol : Option String
  tupleCol : Option String
  stackLines : List String
  skbLines : List String

/-- The immutable configuration of the output struct: flags, attachment
mechanism, runtime.GOARCH, the symbol table, and the two external
queries Print makes (ps.FindProcess collapsed to an Option, and
net.IP.String). -/
structure Config where
  flags : Flags
  kprobeMulti : Bool
  goarch : String
  addr2name : List (Nat × String)
  procLookup : Nat → Option String
  ipStr : List Nat → String

/-- Result of one Print call: the rendered record, the state afterwards,
and whether a Delete was issued on the stack table (output.go line 127
issues it whenever the stack section runs, regardless of fetch success;
no Delete at all exists for the skb table). -/
structure PrintResult where
  record : Record
  state : OutState
  stackDeleteIssued : Bool

/-- Print from output.go lines 63-138, as a state transformer. -/
def Print (cfg : Config) (st : OutState) (e : Event) : PrintResult :=
  let execName := (cfg.procLookup e.PID).getD "<empty>"
  let ts :=
    if cfg.flags.OutputTS = "relative" then
      match st.lastSeenSkb e.SAddr with
      | some last => (e.Timestamp + W64 - last) % W64
      | none => 0
    else e.Timestamp
  let addr := normalizeAddr cfg.goarch cfg.kprobeMulti e.Addr
  let funcName := resolveFuncName cfg.goarch cfg.addr2name addr
  let tsCol := if cfg.flags.OutputTS ≠ "none" then some ts else none
  let lastSeenSkb1 : Nat → Option Nat :=
    fun k => if k = e.SAddr then some e.Timestamp else st.lastSeenSkb k
  let metaCol :=
    if cfg.flags.OutputMeta then
      some ("netns=" ++ toString e.Meta.Netns ++ " mark=" ++ hexStr e.Meta.Mark
        ++ " ifindex=" ++ toString e.Meta.Ifindex ++ " proto=" ++ hexDigits e.Meta.Proto
        ++ " mtu=" ++ toString e.Meta.MTU ++ " len=" ++ toString e.Meta.Len)
    else none
  let tupleCol :=
    if cfg.flags.OutputTuple then
      some (addrToStr cfg.ipStr e.Tuple.L3Proto e.Tuple.Saddr ++ ":"
        ++ toString (NetworkToHost16 e.Tuple.Sport) ++ "->"
        ++ addrToStr cfg.ipStr e.Tuple.L3Proto e.Tuple.Daddr ++ ":"
        ++ toString (NetworkToHost16 e.Tuple.Dport)
        ++ "(" ++ protoToStr e.Tuple.L4Proto ++ ")")
    else none
  let stackId := e.PrintStackId % 2 ^ 32
  let stackLines :=
    if cfg.flags.OutputStack ∧ 0 < e.PrintStackId then
      match st.stackTable stackId with
      | some stack =>
          (stack.filter fun ip => decide (0 < ip)).map (findNearestSym cfg.addr2name)
      | none => []
    else []
  let stackTable1 : Nat → Option (List Nat) :=
    if cfg.flags.OutputStack ∧ 0 < e.PrintStackId then
      fun k => if k = stackId then none else st.stackTable k
    else st.stackTable
  let deleted : Bool :=
    if cfg.flags.OutputStack ∧ 0 < e.PrintStackId then true else false
  let skbId := e.PrintSkbId % 2 ^ 32
  let skbLines :=
    if cfg.flags.OutputSkb then
      match st.skbTable skbId with
      | some s => [s]
      | none => []
    else []
  { record :=
      { skbCol := hexStr e.SAddr
        cpuCol := toString e.CPU
        processCol := "[" ++ execName ++ "]"
        funcCol := funcName
        tsCol := tsCol
        metaCol := metaCol
        tupleCol := tupleCol
        stackLines := stackLines
        skbLines := skbLines }
    state :=
      { lastSeenSkb := lastSeenSkb1
        stackTable := stackTable1
        skbTable := st.skbTable }
    stackDeleteIssued := deleted }

/-! Concrete example data used by closed witness and counterexample
theorems. -/

/-- An all-zero metadata block. -/
def exMeta : Meta := ⟨0, 0, 0, 0, 0, 0⟩

/-- An all-zero tuple block. -/
def exTuple : Tuple := ⟨List.replicate 16 0, List.replicate 16 0, 0, 0, 0, 0⟩

/-- Flags with every optional section off and timestamps disabled. -/
def exFlagsNone : Flags := ⟨"none", false, false, false, false⟩

/-- Flags with relative timestamps and every optional section off. -/
def exFlagsRel : Flags := ⟨"relative", false, false, false, false⟩

/-- Flags with only the stack section on. -/
def exFlagsStack : Flags := ⟨"none", false, false, true, false⟩

/-- Flags with only the skb section on. -/
def exFlagsSkb : Flags := ⟨"none", false, false, false, true⟩

/-- An arm64 bulk-probe configuration with an empty symbol table. -/
def exCfgRel : Config := ⟨exFlagsRel, true, "arm64", [], fun _ => none, fun _ => ""⟩

/-- An amd64 single-probe configuration with an empty symbol table. -/
def exCfgAmd : Config := ⟨exFlagsNone, false, "amd64", [], fun _ => none, fun _ => ""⟩

/-- A configuration rendering the stack section. -/
def exCfgStack : Config := ⟨exFlagsStack, true, "arm64", [], fun _ => none, fun _ => ""⟩

/-- A configuration rendering the skb section. -/
def exCfgSkb : Config := ⟨exFlagsSkb, true, "arm64", [], fun _ => none, fun _ => ""⟩

/-- Empty state: no flow seen, both side tables empty. -/
def exStEmpty : OutState := ⟨fun _ => none, fun _ => none, fun _ => none⟩

/-- State whose stack table holds one entry at id 7. -/
def exStStack : OutState :=
  ⟨fun _ => none, fun k => if k = 7 then some [0, 4096] else none, fun _ => none⟩

/-- State whose skb table holds one entry at id 9. -/
def exStSkb : OutState :=
  ⟨fun _ => none, fun _ => none, fun k => if k = 9 then some "skb dump" else none⟩

/-- State whose skb table holds one entry at id 0. -/
def exStSkb0 : OutState :=
  ⟨fun _ => none, fun _ => none, fun k => if k = 0 then some "stale" else none⟩

/-- An event for flow key 0xAB carrying a given raw timestamp. -/
def mkEventTS (ts : Nat) : Event :=
  { PID := 0, SAddr := 0xAB, Timestamp := ts, Addr := 0, CPU := 0,
    Meta := exMeta, Tuple := exTuple, PrintStackId := 0, PrintSkbId := 0 }

/-- An event carrying a given stack id. -/
def mkEventStack (id : Nat) : Event :=
  { PID := 0, SAddr := 0, Timestamp := 0, Addr := 0, CPU := 0,
    Meta := exMeta, Tuple := exTuple, PrintStackId := id, PrintSkbId := 0 }

/-- An event carrying a given skb id. -/
def mkEventSkb (id : Nat) : Event :=
  { PID := 0, SAddr := 0, Timestamp := 0, Addr := 0, CPU := 0,
    Meta := exMeta, Tuple := exTuple, PrintStackId := 0, PrintSkbId := id }

/-- An event carrying raw instruction address 0x1000. -/
def exEventAddr : Event :=
  { PID := 0, SAddr := 0, Timestamp := 0, Addr := 0x1000, CPU := 0,
    Meta := exMeta, Tuple := exTuple, PrintStackId := 0, PrintSkbId := 0 }

/-! Claim theorems. -/

/-- C7: the L4 protocol tag renders as 6 = tcp, 17 = udp, 1 = icmp,
58 = icmp6, and every other value as the empty string, never an error. -/
theorem c7_protoToStr_cases :
    protoToStr 6 = "tcp" ∧ protoToStr 17 = "udp" ∧ protoToStr 1 = "icmp" ∧
    protoToStr 58 = "icmp6" ∧
    ∀ p, p ≠ 6 → p ≠ 17 → p ≠ 1 → p ≠ 58 → protoToStr p = "" := by
  refine ⟨rfl, rfl, rfl, rfl, ?_⟩
  intro p h6 h17 h1 h58
  simp [protoToStr, h6, h17, h1, h58]

/-- C7 witness: the recognized value 6 and the unrecognized value 255. -/
theorem c7_protoToStr_cases_witness :
    protoToStr 6 = "tcp" ∧ protoToStr 255 = "" :=
  ⟨c7_protoToStr_cases.1,
   c7_protoToStr_cases.2.2.2.2 255 (by decide) (by decide) (by decide) (by decide)⟩

/-- C2: address normalization is exactly: amd64 with single-probe
attachment (kprobeMulti false) subtracts 1 from the raw address; amd64
with bulk-probe attachment keeps it unmodified; arm64 keeps it
unmodified for either attachment mechanism. -/
theorem c2_normalizeAddr (raw : Nat) (hpos : 0 < raw) (hlt : raw < W64) :
    normalizeAddr "amd64" false raw = raw - 1 ∧
    normalizeAddr "amd64" true raw = raw ∧
    ∀ b : Bool, normalizeAddr "arm64" b raw = raw := by
  refine ⟨?_, by simp [normalizeAddr], fun b => by simp [normalizeAddr]⟩
  have h1 : raw + W64 - 1 = W64 + (raw - 1) := by omega
  have h2 : (raw + W64 - 1) % W64 = raw - 1 := by
    rw [h1, Nat.add_mod_left, Nat.mod_eq_of_lt (by omega)]
  simpa [normalizeAddr] using h2

/-- C2 witness: raw address 0x1000 in the three normalization cases. -/
theorem c2_normalizeAddr_witness :
    normalizeAddr "amd64" false 0x1000 = 0xfff ∧
    normalizeAddr "amd64" true 0x1000 = 0x1000 ∧
    normalizeAddr "arm64" false 0x1000 = 0x1000 :=
  have h := c2_normalizeAddr 0x1000 (by decide) (by decide)
  ⟨h.1, h.2.1, h.2.2 false⟩

/-- C3: symbol resolution tries, in order and first match wins, the
exact normalized address; then, only on amd64, the normalized address
minus 4; else the hex literal of the normalized address.  With a table
holding only 0x2000, address 0x2004 resolves to that symbol on amd64 and
to the hex literal on arm64. -/
theorem c3_resolveFuncName (g : String) (tbl : List (Nat × String)) (addr : Nat)
    (h4 : 4 ≤ addr) (hlt : addr < W64) :
    (∀ name, lookupSym tbl addr = some name → resolveFuncName g tbl addr = name) ∧
    (∀ name, lookupSym tbl addr = none → lookupSym tbl (addr - 4) = some name →
      resolveFuncName "amd64" tbl addr = name) ∧
    (lookupSym tbl addr = none →
      (g = "amd64" → lookupSym tbl (addr - 4) = none) →
      resolveFuncName g tbl addr = hexStr addr) ∧
    resolveFuncName "amd64" [(0x2000, "foo")] 0x2004 = "foo" ∧
    resolveFuncName "arm64" [(0x2000, "foo")] 0x2004 = "0x2004" := by
  have hkey : (addr + W64 - 4) % W64 = addr - 4 := by
    have h1 : addr + W64 - 4 = W64 + (addr - 4) := by omega
    rw [h1, Nat.add_mod_left, Nat.mod_eq_of_lt (by omega)]
  refine ⟨?_, ?_, ?_, rfl, rfl⟩
  · intro name h
    simp [resolveFuncName, h]
  · intro name h h2
    simp [resolveFuncName, h, hkey, h2]
  · intro h himp
    by_cases hg : g = "amd64"
    · simp [resolveFuncName, h, hkey, himp hg, hg]
    · rcases hl : lookupSym tbl (addr - 4) with _ | name
      · simp [resolveFuncName, h, hkey, hl]
      · simp [resolveFuncName, h, hkey, hl, hg]

/-- C3 witness: the two concrete resolutions of 0x2004 against the
one-entry table, obtained from the resolution-order theorem. -/
theorem c3_resolveFuncName_witness :
    resolveFuncName "amd64" [(0x2000, "foo")] 0x2004 = "foo" ∧
    resolveFuncName "arm64" [(0x2000, "foo")] 0x2004 = "0x2004" :=
  ⟨(c3_resolveFuncName "amd64" [(0x2000, "foo")] 0x2004 (by decide)
      (by decide)).2.1 "foo" rfl rfl,
   (c3_resolveFuncName "arm64" [(0x2000, "foo")] 0x2004 (by decide)
      (by decide)).2.2.2.2⟩

/-- C10: on a GOARCH other than amd64 and arm64 the switch leaves the
lookup address at its zero value for every raw address, so the function
name is whatever address 0 resolves to, the hex literal 0x0 when the
table has no entry at 0. -/
theorem c10_other_arch (cfg : Config) (st : OutState) (e : Event)
    (h1 : cfg.goarch ≠ "amd64") (h2 : cfg.goarch ≠ "arm64") :
    normalizeAddr cfg.goarch cfg.kprobeMulti e.Addr = 0 ∧
    (Print cfg st e).record.funcCol = resolveFuncName cfg.goarch cfg.addr2name 0 ∧
    (lookupSym cfg.addr2name 0 = none → (Print cfg st e).record.funcCol = "0x0") := by
  refine ⟨?_, ?_, ?_⟩
  · simp [normalizeAddr, h1, h2]
  · simp [Print, normalizeAddr, h1, h2]
  · intro h0
    have hfc : (Print cfg st e).record.funcCol = resolveFuncName cfg.goarch cfg.addr2name 0 := by
      simp [Print, normalizeAddr, h1, h2]
    rw [hfc]
    rcases hl : lookupSym cfg.addr2name ((0 + W64 - 4) % W64) with _ | nm
    · simp only [resolveFuncName, h0, hl]
      rfl
    · simp only [resolveFuncName, h0, hl]
      rw [if_neg h1]
      rfl

/-- C10 witness: a riscv64 configuration with an empty symbol table
renders the function name 0x0 for raw address 0x1000. -/
theorem c10_other_arch_witness :
    (Print ⟨exFlagsNone, true, "riscv64", [], fun _ => none, fun _ => ""⟩
      exStEmpty exEventAddr).record.funcCol = "0x0" :=
  (c10_other_arch ⟨exFlagsNone, true, "riscv64", [], fun _ => none, fun _ => ""⟩
    exStEmpty exEventAddr (by decide) (by decide)).2.2 rfl

/-- C1: in relative timestamp mode the first event of a flow key renders
timestamp 0; a subsequent event renders the difference against the last
timestamp stored for that key; and in every timestamp mode, after
rendering, the clock entry of that key is overwritten with the event's
raw timestamp. -/
theorem c1_relative_timestamps :
    (∀ cfg st e, cfg.flags.OutputTS = "relative" →
      st.lastSeenSkb e.SAddr = none →
      (Print cfg st e).record.tsCol = some 0) ∧
    (∀ cfg st e last, cfg.flags.OutputTS = "relative" →
      st.lastSeenSkb e.SAddr = some last →
      last ≤ e.Timestamp → e.Timestamp < W64 →
      (Print cfg st e).record.tsCol = some (e.Timestamp - last)) ∧
    (∀ cfg st e, (Print cfg st e).state.lastSeenSkb e.SAddr = some e.Timestamp) := by
  refine ⟨?_, ?_, ?_⟩
  · intro cfg st e hrel hnone
    simp [Print, hrel, hnone]
  · intro cfg st e last hrel hsome hle hlt
    have hts : (e.Timestamp + W64 - last) % W64 = e.Timestamp - last := by
      have h1 : e.Timestamp + W64 - last = W64 + (e.Timestamp - last) := by omega
      rw [h1, Nat.add_mod_left, Nat.mod_eq_of_lt (by omega)]
    simp [Print, hrel, hsome, hts]
  · intro cfg st e
    simp [Print]

/-- C1 witness: flow key 0xAB with raw timestamps 100 then 150 renders
0 then 50, and the clock holds 100 after the first event. -/
theorem c1_relative_timestamps_witness :
    (Print exCfgRel exStEmpty (mkEventTS 100)).record.tsCol = some 0 ∧
    (Print exCfgRel (Print exCfgRel exStEmpty (mkEventTS 100)).state
      (mkEventTS 150)).record.tsCol = some 50 ∧
    (Print exCfgRel exStEmpty (mkEventTS 100)).state.lastSeenSkb 0xAB = some 100 :=
  ⟨c1_relative_timestamps.1 exCfgRel exStEmpty (mkEventTS 100) rfl rfl,
   c1_relative_timestamps.2.1 exCfgRel (Print exCfgRel exStEmpty (mkEventTS 100)).state
     (mkEventTS 150) 100 rfl (by simp [Print, exStEmpty, mkEventTS])
     (by decide) (by decide),
   c1_relative_timestamps.2.2 exCfgRel exStEmpty (mkEventTS 100)⟩

/-- C9: an event whose PID is absent from the OS process table at render
time renders the fixed placeholder in the process column, no error is
raised, and the rest of the record is exactly what a successful lookup
returning the placeholder name would render. -/
theorem c9_process_placeholder (cfg : Config) (st : OutState) (e : Event)
    (h : cfg.procLookup e.PID = none) :
    (Print cfg st e).record.processCol = "[<empty>]" ∧
    Print cfg st e = Print { cfg with procLookup := fun _ => some "<empty>" } st e := by
  constructor
  · simp [Print, h]
  · simp [Print, h]

/-- C9 witness: the relative-mode example configuration never finds a
process, and the record shows the bracketed placeholder. -/
theorem c9_process_placeholder_witness :
    (Print exCfgRel exStEmpty (mkEventTS 100)).record.processCol = "[<empty>]" :=
  (c9_process_placeholder exCfgRel exStEmpty (mkEventTS 100) rfl).1

/-- C8: endpoint rendering passes exactly the leading 4 of the 16
address bytes to the IP renderer for the IPv4 tag 0x0800 and all 16 for
the IPv6 tag 0x86dd, renders any other tag as an empty endpoint string,
and the tuple section applies the network-to-host conversion to both
ports before rendering them. -/
theorem c8_tuple_rendering (ipStr : List Nat → String) (a b : List Nat) (p : Nat)
    (hp1 : p ≠ 2048) (hp2 : p ≠ 34525) :
    addrToStr ipStr 2048 a = ipStr (a.take 4) ∧
    (a.take 4 = b.take 4 → addrToStr ipStr 2048 a = addrToStr ipStr 2048 b) ∧
    addrToStr ipStr 34525 a = "[" ++ ipStr a ++ "]" ∧
    addrToStr ipStr p a = "" ∧
    NetworkToHost16 0x1234 = 0x3412 ∧
    (∀ cfg st e, cfg.flags.OutputTuple = true →
      (Print cfg st e).record.tupleCol = some (
        addrToStr cfg.ipStr e.Tuple.L3Proto e.Tuple.Saddr ++ ":"
          ++ toString (NetworkToHost16 e.Tuple.Sport) ++ "->"
          ++ addrToStr cfg.ipStr e.Tuple.L3Proto e.Tuple.Daddr ++ ":"
          ++ toString (NetworkToHost16 e.Tuple.Dport)
          ++ "(" ++ protoToStr e.Tuple.L4Proto ++ ")")) := by
  refine ⟨by simp [addrToStr], ?_, by simp [addrToStr], ?_, by decide, ?_⟩
  · intro hab
    simp [addrToStr, hab]
  · simp [addrToStr, hp1, hp2]
  · intro cfg st e h
    simp [Print, h]

/-- C8 witness: a buffer whose leading 4 bytes carry 10.0.0.1 under the
IPv4 tag, the same buffer under an unrecognized tag, and the byte swap
of a sample port. -/
theorem c8_tuple_rendering_witness :
    addrToStr (fun bs => toString bs) 2048
        ([10, 0, 0, 1] ++ List.replicate 12 0) = toString [10, 0, 0, 1] ∧
    addrToStr (fun bs => toString bs) 7 ([10, 0, 0, 1] ++ List.replicate 12 0) = "" ∧
    NetworkToHost16 0x1234 = 0x3412 :=
  have h := c8_tuple_rendering (fun bs => toString bs)
    ([10, 0, 0, 1] ++ List.replicate 12 0) [] 7 (by decide) (by decide)
  ⟨by rw [h.1]; rfl, h.2.2.2.1, h.2.2.2.2.1⟩

/-- C4 counterexample: a successful buffer expansion does not delete its
table entry, so the entry at id 9 is still present afterwards and a
second expansion with the same id renders it again. -/
theorem c4_counterexample_skb_not_deleted :
    (Print exCfgSkb exStSkb (mkEventSkb 9)).record.skbLines = ["skb dump"] ∧
    (Print exCfgSkb exStSkb (mkEventSkb 9)).state.skbTable 9 = some "skb dump" ∧
    (Print exCfgSkb (Print exCfgSkb exStSkb (mkEventSkb 9)).state
      (mkEventSkb 9)).record.skbLines = ["skb dump"] :=
  ⟨rfl, rfl, rfl⟩

/-- C4 amended: a stack entry is deleted as part of its expansion, so a
second attempt with the same id finds no entry; the buffer expander
never deletes, leaving the skb table unchanged by every Print. -/
theorem c4_amended_consumption :
    (∀ cfg st e ips, cfg.flags.OutputStack = true → 0 < e.PrintStackId →
      st.stackTable (e.PrintStackId % 2 ^ 32) = some ips →
      (Print cfg st e).state.stackTable (e.PrintStackId % 2 ^ 32) = none) ∧
    (∀ cfg st e, (Print cfg st e).state.skbTable = st.skbTable) := by
  constructor
  · intro cfg st e ips hflag hpos _hsome
    simp [Print, hflag, hpos]
  · intro cfg st e
    rfl

/-- C4 witness: the stack entry at id 7 is gone after its expansion,
while the buffer table is untouched by the run that expanded id 9. -/
theorem c4_amended_consumption_witness :
    (Print exCfgStack exStStack (mkEventStack 7)).state.stackTable (7 % 2 ^ 32) = none ∧
    (Print exCfgSkb exStSkb (mkEventSkb 9)).state.skbTable = exStSkb.skbTable :=
  ⟨c4_amended_consumption.1 exCfgStack exStStack (mkEventStack 7) [0, 4096]
      rfl (by decide) rfl,
   c4_amended_consumption.2 exCfgSkb exStSkb (mkEventSkb 9)⟩

/-- C5 counterexample: with stack id 5 absent from the table the fetch
fails yet a delete is still issued, and with skb id 0 present in the
table the buffer expander renders it rather than rendering nothing. -/
theorem c5_counterexample_delete_and_id0 :
    (Print exCfgStack exStStack (mkEventStack 5)).record.stackLines = [] ∧
    (Print exCfgStack exStStack (mkEventStack 5)).stackDeleteIssued = true ∧
    (Print exCfgSkb exStSkb0 (mkEventSkb 0)).record.skbLines = ["stale"] ∧
    (Print exCfgSkb exStSkb0 (mkEventSkb 0)).record.skbLines ≠ [] :=
  ⟨rfl, rfl, rfl, by decide⟩

/-- C5 amended: on fetch failure both expanders render nothing, raise no
error, and leave the tables unchanged; but the stack expander issues a
no-op delete whenever its id is positive even if the fetch failed, and
only an id of 0 skips the stack section without a delete. -/
theorem c5_amended_fetch_failure :
    (∀ cfg st e, cfg.flags.OutputStack = true → 0 < e.PrintStackId →
      st.stackTable (e.PrintStackId % 2 ^ 32) = none →
      (Print cfg st e).record.stackLines = [] ∧
      (Print cfg st e).stackDeleteIssued = true ∧
      ∀ k, (Print cfg st e).state.stackTable k = st.stackTable k) ∧
    (∀ cfg st e, e.PrintStackId = 0 →
      (Print cfg st e).record.stackLines = [] ∧
      (Print cfg st e).stackDeleteIssued = false) ∧
    (∀ cfg st e, st.skbTable (e.PrintSkbId % 2 ^ 32) = none →
      (Print cfg st e).record.skbLines = []) := by
  refine ⟨?_, ?_, ?_⟩
  · intro cfg st e hflag hpos hnone
    have h32 : (2 : Nat) ^ 32 = 4294967296 := by norm_num
    rw [h32] at hnone
    refine ⟨by simp [Print, hflag, hpos, hnone], by simp [Print, hflag, hpos], ?_⟩
    intro k
    simp [Print, hflag, hpos]
    intro hk
    rw [hk]
    exact hnone.symm
  · intro cfg st e h0
    constructor
    · simp [Print, h0]
    · simp [Print, h0]
  · intro cfg st e hnone
    have h32 : (2 : Nat) ^ 32 = 4294967296 := by norm_num
    rw [h32] at hnone
    cases hc : cfg.flags.OutputSkb
    · simp [Print, hc]
    · simp [Print, hc, hnone]

/-- C5 witness: the failed stack fetch at id 5 renders nothing and
leaves the entry at id 7 in place, and the absent skb id 3 renders
nothing. -/
theorem c5_amended_fetch_failure_witness :
    (Print exCfgStack exStStack (mkEventStack 5)).record.stackLines = [] ∧
    (Print exCfgStack exStStack (mkEventStack 5)).state.stackTable 7 =
      exStStack.stackTable 7 ∧
    (Print exCfgSkb exStSkb (mkEventSkb 3)).record.skbLines = [] :=
  ⟨(c5_amended_fetch_failure.1 exCfgStack exStStack (mkEventStack 5)
      rfl (by decide) rfl).1,
   (c5_amended_fetch_failure.1 exCfgStack exStStack (mkEventStack 5)
      rfl (by decide) rfl).2.2 7,
   c5_amended_fetch_failure.2.2 exCfgSkb exStSkb (mkEventSkb 3) rfl⟩

/-- C6 counterexample: on amd64 with single-probe attachment and an
empty symbol table, the hex fallback of raw address 0x1000 renders the
normalized address 0xfff, not the raw address. -/
theorem c6_counterexample_fallback_normalized :
    (Print exCfgAmd exStEmpty exEventAddr).record.funcCol = "0xfff" ∧
    hexStr exEventAddr.Addr = "0x1000" ∧
    (Print exCfgAmd exStEmpty exEventAddr).record.funcCol ≠ hexStr exEventAddr.Addr :=
  ⟨rfl, rfl, by decide⟩

/-- C6 amended: the normalized address is what symbol lookup uses, and
when both lookups miss, the hex fallback in the function-name column
renders the normalized address, not the raw one. -/
theorem c6_amended_normalized_fallback (cfg : Config) (st : OutState) (e : Event)
    (h1 : lookupSym cfg.addr2name
      (normalizeAddr cfg.goarch cfg.kprobeMulti e.Addr) = none)
    (h2 : lookupSym cfg.addr2name
      ((normalizeAddr cfg.goarch cfg.kprobeMulti e.Addr + W64 - 4) % W64) = none) :
    (Print cfg st e).record.funcCol =
      resolveFuncName cfg.goarch cfg.addr2name
        (normalizeAddr cfg.goarch cfg.kprobeMulti e.Addr) ∧
    (Print cfg st e).record.funcCol =
      hexStr (normalizeAddr cfg.goarch cfg.kprobeMulti e.Addr) := by
  have hfc : (Print cfg st e).record.funcCol =
      resolveFuncName cfg.goarch cfg.addr2name
        (normalizeAddr cfg.goarch cfg.kprobeMulti e.Addr) := by
    simp [Print]
  refine ⟨hfc, ?_⟩
  rw [hfc]
  simp only [resolveFuncName, h1, h2]

/-- C6 witness: the amended fallback at raw address 0x1000 on amd64 with
single-probe attachment renders 0xfff. -/
theorem c6_amended_normalized_fallback_witness :
    (Print exCfgAmd exStEmpty exEventAddr).record.funcCol = "0xfff" ∧
    (Print exCfgAmd exStEmpty exEventAddr).record.funcCol =
      resolveFuncName "amd64" [] (normalizeAddr "amd64" false 0x1000) :=
  have h := c6_amended_normalized_fallback exCfgAmd exStEmpty exEventAddr rfl rfl
  ⟨h.2, h.1⟩

end Pwru
